import Mathlib

/-!
Verification of the ilastik prediction web server core (src/server.py).

The development shallowly embeds the object registry (class `Context`), the
class-name allow-list resolution, the tiled prediction pipeline
(`do_predictions`) and the wire adapters (`ng_predict`, `info_dict`,
`predict`, `create_object`, `remove_object`).  Pure structures replace the
Python objects; Python exceptions become `Except` errors; the thread pool
fan-out is modelled as a fold over the tile grid (the tile writes target
disjoint regions, so interleaving cannot change the final buffer, and the
context-manager exit of the executor joins every task before the function
returns).  Geometry that lives in the external `ndstructs` package (absent
from src/) is modelled from the spec where noted.
-/

namespace IlastikServer

/-- The registered constructible classes of src/server.py lines 51-73:
`datasource_classes + feature_extractor_classes + classifier_classes`. -/
inductive WClass where
  | DataSource
  | SequenceDataSource
  | FeatureExtractor
  | GaussianSmoothing
  | HessianOfGaussianEigenvalues
  | GaussianGradientMagnitude
  | LaplacianOfGaussian
  | DifferenceOfGaussians
  | StructureTensorEigenvalues
  | PixelClassifier
  | VigraPixelClassifier
  | ScikitLearnPixelClassifier
  | IlpVigraPixelClassifier
  | AnnotationCls
  deriving DecidableEq, Repr

/-- Modelled from the spec: the Python class hierarchy of the capability
classes (ilastik / ndstructs modules, absent from src/): each class listed
with its ancestors, itself included, as `issubclass` sees them. -/
def superclasses : WClass → List WClass
  | .SequenceDataSource => [.SequenceDataSource, .DataSource]
  | .GaussianSmoothing => [.GaussianSmoothing, .FeatureExtractor]
  | .HessianOfGaussianEigenvalues => [.HessianOfGaussianEigenvalues, .FeatureExtractor]
  | .GaussianGradientMagnitude => [.GaussianGradientMagnitude, .FeatureExtractor]
  | .LaplacianOfGaussian => [.LaplacianOfGaussian, .FeatureExtractor]
  | .DifferenceOfGaussians => [.DifferenceOfGaussians, .FeatureExtractor]
  | .StructureTensorEigenvalues => [.StructureTensorEigenvalues, .FeatureExtractor]
  | .VigraPixelClassifier => [.VigraPixelClassifier, .PixelClassifier]
  | .ScikitLearnPixelClassifier => [.ScikitLearnPixelClassifier, .PixelClassifier]
  | .IlpVigraPixelClassifier => [.IlpVigraPixelClassifier, .VigraPixelClassifier, .PixelClassifier]
  | k => [k]

/-- Python `issubclass(a, b)`. -/
def issubclass (a b : WClass) : Bool := (superclasses a).contains b

/-- A stored server object: its concrete class and an opaque payload that
stands for the object identity (enough to tell two stored objects apart). -/
structure Obj where
  klass : WClass
  payload : Nat
  deriving DecidableEq, Repr

/-- The registry mapping `Context.objects` (src/server.py line 80): a Python
dict from handle strings to objects, i.e. an association list with unique
keys kept in insertion order. -/
abbrev Registry := List (String × Obj)

/-- Python exceptions raised by the embedded code paths. -/
inductive PyError where
  | notFound
  | typeMismatch
  | typeError
  | valueError
  deriving DecidableEq, Repr

/-- Dict write `cls.objects[key] = obj`: overwrite in place when the key is
present (keeping its position, as Python dicts do), else append. -/
def insertEntry : Registry → String → Obj → Registry
  | [], k, v => [(k, v)]
  | (k0, v0) :: rest, k, v =>
    if k0 = k then (k, v) :: rest else (k0, v0) :: insertEntry rest k v

/-- Dict delete `cls.objects.pop(key)`: drop the first entry with the key. -/
def eraseEntry : Registry → String → Registry
  | [], _ => []
  | (k0, v0) :: rest, k =>
    if k0 = k then rest else (k0, v0) :: eraseEntry rest k

/-- `Context.load` (src/server.py lines 105-107): `cls.objects[key]`; `none`
is the KeyError raised on an absent key. -/
def Context.load (objects : Registry) (key : String) : Option Obj :=
  objects.lookup key

/-- `Context.store` (src/server.py lines 109-114):
`obj_id = obj_id if obj_id is not None else uuid.uuid4()`,
`key = f"pointer@..."` built from the id, then `cls.objects[key] = obj`.
The fresh uuid minted for a missing id is modelled as the caller-supplied
`fresh` string. -/
def Context.store (objects : Registry) (obj_id : Option String) (fresh : String) (obj : Obj) :
    String × Registry :=
  let key := "pointer@" ++ obj_id.getD fresh
  (key, insertEntry objects key obj)

/-- `Context.remove` (src/server.py lines 116-121): read
`cls.objects[key].__class__` (KeyError when absent, modelled `notFound`),
raise when the stored class is not a subclass of the expected one (modelled
`typeMismatch`), else pop and return the entry. -/
def Context.remove (objects : Registry) (klass : WClass) (key : String) :
    Except PyError (Obj × Registry) :=
  match objects.lookup key with
  | none => .error .notFound
  | some obj =>
    if issubclass obj.klass klass then .ok (obj, eraseEntry objects key)
    else .error .typeMismatch

/-- `Context.get_all` (src/server.py lines 135-137): the dict comprehension
keeping the entries whose object is an instance of the class. -/
def Context.get_all (objects : Registry) (klass : WClass) : Registry :=
  objects.filter (fun kv => issubclass kv.2.klass klass)

/-- Python `str.title()` restricted to ASCII: the first cased character of
every cased run is uppercased, the following ones lowercased. -/
def pyTitleAux : Bool → List Char → List Char
  | _, [] => []
  | prevAlpha, ch :: rest =>
    if ch.isAlpha then
      (if prevAlpha then ch.toLower else ch.toUpper) :: pyTitleAux true rest
    else
      ch :: pyTitleAux false rest

/-- Python `name.title()`. -/
def pyTitle (s : String) : String := ⟨pyTitleAux false s.data⟩

/-- Python `name.replace("_", "")`: drop every underscore. -/
def dropUnderscores (s : String) : String := ⟨s.data.filter (fun c => !(c == '_'))⟩

/-- The dict `workflow_classes` (src/server.py lines 71-73): class names to
classes, for `datasource_classes + feature_extractor_classes +
classifier_classes`. -/
def workflow_classes : List (String × WClass) := [
  ("DataSource", .DataSource),
  ("SequenceDataSource", .SequenceDataSource),
  ("FeatureExtractor", .FeatureExtractor),
  ("GaussianSmoothing", .GaussianSmoothing),
  ("HessianOfGaussianEigenvalues", .HessianOfGaussianEigenvalues),
  ("GaussianGradientMagnitude", .GaussianGradientMagnitude),
  ("LaplacianOfGaussian", .LaplacianOfGaussian),
  ("DifferenceOfGaussians", .DifferenceOfGaussians),
  ("StructureTensorEigenvalues", .StructureTensorEigenvalues),
  ("PixelClassifier", .PixelClassifier),
  ("VigraPixelClassifier", .VigraPixelClassifier),
  ("ScikitLearnPixelClassifier", .ScikitLearnPixelClassifier),
  ("IlpVigraPixelClassifier", .IlpVigraPixelClassifier),
  ("Annotation", .AnnotationCls)]

/-- `Context.get_class_named` (src/server.py lines 87-96): keep the name when
it is a key of `workflow_classes`, else retry with
`name.title().replace("_", "")`.  The `except KeyError` branch only enters a
debugger stub (`import pydevd; pydevd.settrace(); print(...)`) and falls off
the end of the function, which in Python returns `None` - modelled `none`. -/
def Context.get_class_named (name : String) : Option WClass :=
  let name1 := if (workflow_classes.lookup name).isSome then name
               else dropUnderscores (pyTitle name)
  workflow_classes.lookup name1

/-- A resolved half-open integer range `[start, stop)` on one axis. -/
structure Interval where
  start : Nat
  stop : Nat
  deriving DecidableEq, Repr

/-- Membership of a coordinate in an interval. -/
def Interval.containsB (iv : Interval) (n : Nat) : Bool :=
  decide (iv.start ≤ n) && decide (n < iv.stop)

/-- A point of the five-axis coordinate space `(t, c, x, y, z)`. -/
structure Point5D where
  t : Nat
  c : Nat
  x : Nat
  y : Nat
  z : Nat
  deriving DecidableEq, Repr

/-- A full five-axis extent (`Shape5D`): one length per axis. -/
structure Shape5D where
  t : Nat
  c : Nat
  x : Nat
  y : Nat
  z : Nat
  deriving DecidableEq, Repr

/-- A `Slice5D` as built by the routes: each axis either a bound range or
unbounded (to be resolved against a subject shape). -/
structure Slice5D where
  t : Option Interval
  c : Option Interval
  x : Option Interval
  y : Option Interval
  z : Option Interval
  deriving DecidableEq, Repr

/-- A fully resolved five-axis region. -/
structure Roi5D where
  t : Interval
  c : Interval
  x : Interval
  y : Interval
  z : Interval
  deriving DecidableEq, Repr

/-- Modelled from the spec: axis resolution (spec section 3; the ndstructs
`defined()` call is absent from src/).  An unbounded axis becomes
`[0, extent)`; a bound axis is clamped to lie within `[0, extent)`. -/
def resolveAxis (oi : Option Interval) (extent : Nat) : Interval :=
  match oi with
  | none => ⟨0, extent⟩
  | some iv => ⟨min iv.start extent, min iv.stop extent⟩

/-- Modelled from the spec: `DataSourceSlice(datasource, **roi.to_dict()).defined()`
(src/server.py line 143; ndstructs absent from src/) - resolve every axis of
the requested slice against the data source shape. -/
def Slice5D.defined (s : Slice5D) (shape : Shape5D) : Roi5D :=
  ⟨resolveAxis s.t shape.t, resolveAxis s.c shape.c, resolveAxis s.x shape.x,
   resolveAxis s.y shape.y, resolveAxis s.z shape.z⟩

/-- A tile of the grid: the `(t, x, y, z)` intervals it spans (its channel
extent is the full input channel range; the prediction written for it spans
the classifier's output channels). -/
abbrev Tile5D := Interval × Interval × Interval × Interval

/-- Membership of a point's `(t, x, y, z)` coordinates in a tile. -/
def Tile5D.containsB (tl : Tile5D) (p : Point5D) : Bool :=
  tl.1.containsB p.t &&
    (tl.2.1.containsB p.x && (tl.2.2.1.containsB p.y && tl.2.2.2.containsB p.z))

/-- The per-axis tile decomposition: tiles of length `step` walked from the
interval's start, the last one clamped to its stop. -/
def axisTiles (iv : Interval) (step : Nat) : List Interval :=
  (List.range ((iv.stop - iv.start + step - 1) / step)).map
    (fun k => ⟨iv.start + k * step, min (iv.start + k * step + step) iv.stop⟩)

/-- All pairs `(a, b)` with `a` from the first list and `b` from the second. -/
def pairs (l1 : List α) (l2 : List β) : List (α × β) :=
  l1.flatMap (fun a => l2.map (fun b => (a, b)))

/-- Modelled from the spec: `backed_roi.get_tiles()` (src/server.py line 147;
ndstructs absent from src/) - the tile grid of spec section 4.1, walking the
`t`, `x`, `y`, `z` axes in strides of the data source's native tile shape
starting at the region's own start, clamping the last tile per axis. -/
def tileGrid (roi : Roi5D) (tile_shape : Shape5D) : List Tile5D :=
  pairs (axisTiles roi.t tile_shape.t)
    (pairs (axisTiles roi.x tile_shape.x)
      (pairs (axisTiles roi.y tile_shape.y) (axisTiles roi.z tile_shape.z)))

/-- A data source capability: its full shape and its native tile shape
(opaque to the core beyond these, spec section 2). -/
structure DataSource where
  shape : Shape5D
  tile_shape : Shape5D

/-- A classifier capability: its output channel count, the value it predicts
at every point, and which tiles make its `predict` raise (opaque capability,
spec section 2; predictions on a tile span the tile spatially and the
channels `[0, numChannels)`). -/
structure Classifier where
  numChannels : Nat
  predictVal : Point5D → Nat
  failsOn : Tile5D → Bool

/-- The prediction output buffer: its five-axis region and the written cells
(`none` = never written; `allocate_predictions` pre-allocates all-unwritten). -/
structure Predictions where
  t : Interval
  c : Interval
  x : Interval
  y : Interval
  z : Interval
  data : Point5D → Option Nat

/-- Membership of a point in the buffer's region. -/
def Predictions.containsB (b : Predictions) (p : Point5D) : Bool :=
  b.t.containsB p.t && b.c.containsB p.c && b.x.containsB p.x &&
    b.y.containsB p.y && b.z.containsB p.z

/-- `classifier.allocate_predictions(backed_roi)` (src/server.py line 145):
the output buffer spans the backed region spatially and the classifier's
output channels `[0, numChannels)` (spec section 4.3 step 3). -/
def Classifier.allocate_predictions (cl : Classifier) (roi : Roi5D) : Predictions :=
  ⟨roi.t, ⟨0, cl.numChannels⟩, roi.x, roi.y, roi.z, fun _ => none⟩

/-- The region covered by the prediction tile `classifier.predict(tile)`
(src/server.py line 150): the tile's `(t, x, y, z)` extent and the output
channels `[0, numChannels)`. -/
def predRegionB (cl : Classifier) (tl : Tile5D) (p : Point5D) : Bool :=
  Tile5D.containsB tl p && decide (p.c < cl.numChannels)

/-- `predictions.set(tile_prediction, autocrop=True)` (src/server.py
line 151): write the values over the tile prediction's region intersected
with the buffer's own bounds (autocrop), leaving other cells untouched. -/
def Predictions.set (buf : Predictions) (region : Point5D → Bool) (vals : Point5D → Nat) :
    Predictions :=
  { buf with data := fun p => if region p && buf.containsB p then some (vals p) else buf.data p }

/-- One executor task `predict_tile(tile)` (src/server.py lines 149-153): a
task whose `classifier.predict` raises stores its exception in a future that
`do_predictions` never examines, so the exception is silently discarded and
the task performs no write; otherwise the prediction is written into the
shared buffer. -/
def predictTileStep (cl : Classifier) (buf : Predictions) (tl : Tile5D) : Predictions :=
  if cl.failsOn tl then buf else buf.set (predRegionB cl tl) cl.predictVal

/-- `do_predictions` (src/server.py lines 140-154).  The
`with ThreadPoolExecutor()` block exits through `shutdown(wait=True)`, so
every submitted tile task has completed before the function returns; the
tiles write pairwise disjoint regions, so the thread interleaving cannot
affect the final buffer and the fan-out is modelled as a fold over the tile
grid.  Exceptions raised inside a task are kept in unexamined futures
(see `predictTileStep`), so the function returns the buffer in all cases.
The two handle lookups (`Context.load`) are resolved by the callers; this
definition takes the loaded classifier and data source directly. -/
def do_predictions (cl : Classifier) (ds : DataSource) (roi : Slice5D) : Predictions :=
  let backed := roi.defined ds.shape
  (tileGrid backed ds.tile_shape).foldl (predictTileStep cl)
    (cl.allocate_predictions backed)

/-- The `Slice5D(x=slice(xBegin, xEnd), y=..., z=...)` built by `ng_predict`
(src/server.py line 187): spatial axes bound, `t` and `c` unbounded. -/
def ng_predict_roi (xB xE yB yE zB zE : Nat) : Slice5D :=
  ⟨none, none, some ⟨xB, xE⟩, some ⟨yB, yE⟩, some ⟨zB, zE⟩⟩

/-- The response body of `ng_predict` (src/server.py lines 181-194):
`predictions.as_uint8().raw("xyzc").tobytes("F")`.  Modelled from the spec:
numpy is absent from src/; `tobytes("F")` emits the buffer column-major, so
byte `i` holds the cell at `x = i mod X`, `y = i / X mod Y`,
`z = i / (X * Y) mod Z`, `c = i / (X * Y * Z)` relative to the buffer's
region (`x` fastest, then `y`, `z`, `channel`; the singleton `t` axis is
dropped by `raw("xyzc")`).  Unwritten cells read as the zero fill of the
pre-allocated buffer. -/
def ng_predict_body (cl : Classifier) (ds : DataSource) (xB xE yB yE zB zE : Nat) : List Nat :=
  let preds := do_predictions cl ds (ng_predict_roi xB xE yB yE zB zE)
  let X := preds.x.stop - preds.x.start
  let Y := preds.y.stop - preds.y.start
  let Z := preds.z.stop - preds.z.start
  let C := preds.c.stop - preds.c.start
  (List.range (X * Y * Z * C)).map (fun i =>
    (preds.data ⟨preds.t.start, i / (X * Y * Z), preds.x.start + i % X,
      preds.y.start + i / X % Y, preds.z.start + i / (X * Y) % Z⟩).getD 0)

/-- A JSON document, as produced by `flask.jsonify`. -/
inductive Json where
  | str (s : String)
  | num (n : Int)
  | arr (items : List Json)
  | obj (fields : List (String × Json))

mutual

/-- The serialized bytes of a JSON document (fields in construction order). -/
def Json.render : Json → String
  | .str s => "\x22" ++ s ++ "\x22"
  | .num n => toString n
  | .arr items => "[" ++ Json.renderItems items ++ "]"
  | .obj fields => "\x7b" ++ Json.renderFields fields ++ "\x7d"

/-- The comma-separated renderings of array items. -/
def Json.renderItems : List Json → String
  | [] => ""
  | [j] => Json.render j
  | j :: rest => Json.render j ++ "," ++ Json.renderItems rest

/-- The comma-separated renderings of object fields. -/
def Json.renderFields : List (String × Json) → String
  | [] => ""
  | [(k, v)] => "\x22" ++ k ++ "\x22" ++ ":" ++ Json.render v
  | (k, v) :: rest => "\x22" ++ k ++ "\x22" ++ ":" ++ Json.render v ++ "," ++ Json.renderFields rest

end

/-- The top-level keys of a JSON object, in order. -/
def Json.topKeys : Json → List String
  | .obj fields => fields.map Prod.fst
  | _ => []

/-- The entries of the top-level `scales` array of a JSON object. -/
def Json.scalesEntries : Json → List Json
  | .obj fields =>
    match fields.lookup "scales" with
    | some (.arr items) => items
    | _ => []
  | _ => []

/-- `info_dict` (src/server.py lines 197-222): the discovery document for a
classifier and data source.  `expected_predictions_shape` is
`classifier.get_expected_roi(datasource.roi).shape`: the data source's
spatial shape with the channel axis replaced by the classifier's output
channel count (spec section 4.3 step 3).  The handle lookups are resolved by
the caller. -/
def info_dict (cl : Classifier) (ds : DataSource) : Json :=
  .obj [
    ("@type", .str "neuroglancer_multiscale_volume"),
    ("type", .str "image"),
    ("data_type", .str "uint8"),
    ("num_channels", .num (Int.ofNat cl.numChannels)),
    ("scales", .arr [ .obj [
      ("key", .str "data"),
      ("size", .arr [.num (Int.ofNat ds.shape.x), .num (Int.ofNat ds.shape.y),
        .num (Int.ofNat ds.shape.z)]),
      ("resolution", .arr [.num 1, .num 1, .num 1]),
      ("voxel_offset", .arr [.num 0, .num 0, .num 0]),
      ("chunk_sizes", .arr [.arr [.num (Int.ofNat ds.tile_shape.x),
        .num (Int.ofNat ds.tile_shape.y), .num (Int.ofNat ds.tile_shape.z)]]),
      ("encoding", .str "raw")]])]

/-- The channel query parameter of the `predict` route (src/server.py
line 171): `int(request.args.get("channel", 0))` - the integer default `0`
when the parameter is absent, else `int()` of the string, which raises
ValueError on a malformed string. -/
def predict_channel (args : List (String × String)) : Except PyError Int :=
  match args.lookup "channel" with
  | none => .ok 0
  | some s =>
    match s.toInt? with
    | some n => .ok n
    | none => .error .valueError

/-- The `predict` route (src/server.py lines 157-177): run `do_predictions`,
cut the channel given by `predict_channel`, and render the resulting `yx`
plane as a PNG.  The returned function is that plane
(`predictions.cut(Slice5D(c=channel)).as_uint8(normalized=True).raw("yx")`),
the data the PNG is produced from; the singleton `t` and `z` axes are
dropped at the buffer's own region start. -/
def predict_route (cl : Classifier) (ds : DataSource) (roi : Slice5D)
    (args : List (String × String)) : Except PyError (Nat → Nat → Option Nat) :=
  match predict_channel args with
  | .error e => .error e
  | .ok ch =>
    let preds := do_predictions cl ds roi
    .ok (fun y x => preds.data ⟨preds.t.start, ch.toNat, x, y, preds.z.start⟩)

/-- An HTTP outcome of a route, as Flask surfaces it to the client. -/
inductive HttpResponse where
  | okJson (body : String)
  | clientError (code : Nat) (body : String)
  | serverError
  deriving DecidableEq, Repr

/-- A decoded request payload for `Context.create`: the optional `id` field
read by `request_payload.get("id")` and the rest of the payload, opaque. -/
structure Payload where
  id : Option String
  data : Nat
  deriving DecidableEq, Repr

/-- The `create_object` route (src/server.py lines 336-344) together with
`Context.create` (lines 98-103).  When `get_class_named` yields `None`
(unknown class name), `klass.from_json_data(request_payload)` is an attribute
access on `None`: it raises, no errorhandler catches it, and Flask returns a
generic 500 server error with nothing stored.  Otherwise the object is
constructed from the payload (`from_json_data` modelled opaquely as tagging
the payload with the class), stored, and the new handle returned. -/
def create_object (objects : Registry) (class_name : String) (payload : Payload)
    (fresh : String) : HttpResponse × Registry :=
  match Context.get_class_named class_name with
  | none => (.serverError, objects)
  | some k =>
    let obj : Obj := ⟨k, payload.data⟩
    let res := Context.store objects payload.id fresh obj
    (.okJson res.1, res.2)

/-- The `remove_object` route (src/server.py lines 325-328):
`DELETE /<class_name>/<object_id>` calls
`Context.remove(Context.get_class_named(class_name), object_id)`.
`Context.remove` reads `cls.objects[key]` first, so an absent handle raises
KeyError whatever the class argument resolved to; when `get_class_named`
yields `None` and the handle exists, `issubclass(target_class, None)` raises
TypeError.  Every raised error propagates as a non-200 error response; on
success the route answers with the id. -/
def remove_object (objects : Registry) (class_name object_id : String) :
    Except PyError (String × Registry) :=
  match Context.get_class_named class_name with
  | some k =>
    match Context.remove objects k object_id with
    | .ok res => .ok (object_id, res.2)
    | .error e => .error e
  | none =>
    match objects.lookup object_id with
    | none => .error .notFound
    | some _ => .error .typeError

/-- A concrete data source: shape `(t=1, c=1, x=2, y=1, z=1)`, native tile
shape all ones (two tiles along `x`). -/
def exDS : DataSource := ⟨⟨1, 1, 2, 1, 1⟩, ⟨1, 1, 1, 1, 1⟩⟩

/-- A concrete classifier: one output channel, predicting `x + 1` at each
point, never raising. -/
def exCl : Classifier := ⟨1, fun p => p.x + 1, fun _ => false⟩

/-- A concrete classifier whose `predict` raises exactly on the tile whose
`x` interval starts at `1`. -/
def exClFail : Classifier := ⟨1, fun _ => 5, fun tl => decide (tl.2.1.start = 1)⟩

/-- The concrete request slice `x = [0, 2)`, other axes unbounded. -/
def exRoi : Slice5D := ⟨none, none, some ⟨0, 2⟩, none, none⟩

/-- A concrete data source whose `x` extent is only 5 (for the raw-chunk
request that asks past the bounds): shape `(1, 1, 5, 10, 1)`, one tile. -/
def cxDS : DataSource := ⟨⟨1, 1, 5, 10, 1⟩, ⟨1, 1, 5, 10, 1⟩⟩

/-- A concrete two-channel classifier, never raising. -/
def cxCl : Classifier := ⟨2, fun _ => 0, fun _ => false⟩

/-- Dict lookup after writing a key finds the value just written. -/
theorem lookup_insertEntry_self (objects : Registry) (k : String) (v : Obj) :
    (insertEntry objects k v).lookup k = some v := by
  induction objects with
  | nil => simp [insertEntry, List.lookup]
  | cons hd rest ih =>
    obtain ⟨k0, v0⟩ := hd
    by_cases h : k0 = k
    · simp [insertEntry, h, List.lookup]
    · have hne : (k == k0) = false := by simp [Ne.symm h]
      simp [insertEntry, h, List.lookup, hne, ih]

/-- C4: `store(id, X)` returns the deterministic handle `"pointer@" + id`;
`load(store(None, X))` returns `X`; and `store(id, X)` then `store(id, Y)`
then `load` of that handle returns `Y` (last-write-wins on a stable id). -/
theorem store_returns_pointer_handle_and_load_roundtrips (objects : Registry)
    (id fresh fresh2 : String) (X Y : Obj) :
    (Context.store objects (some id) fresh X).1 = "pointer@" ++ id
    ∧ Context.load (Context.store objects none fresh X).2
        (Context.store objects none fresh X).1 = some X
    ∧ Context.load
        (Context.store (Context.store objects (some id) fresh X).2 (some id) fresh2 Y).2
        ("pointer@" ++ id) = some Y := by
  refine ⟨rfl, ?_, ?_⟩
  · exact lookup_insertEntry_self objects _ X
  · exact lookup_insertEntry_self _ _ Y

/-- C5: removing a stored entry under an expected type that its concrete
class is not a subclass of fails with the type-mismatch error and leaves the
entry intact: a load on the same handle still returns the stored object. -/
theorem remove_wrong_type_fails_and_keeps_entry (objects : Registry) (klass : WClass)
    (key : String) (obj : Obj) (hfound : objects.lookup key = some obj)
    (hmis : issubclass obj.klass klass = false) :
    Context.remove objects klass key = .error .typeMismatch
    ∧ Context.load objects key = some obj := by
  refine ⟨?_, hfound⟩
  simp [Context.remove, hfound, hmis]

/-- Witness for C5 at a concrete registry: an annotation object stored under
`"pointer@a"` cannot be removed as a `DataSource`, and is still loadable. -/
theorem remove_wrong_type_fails_and_keeps_entry_witness :
    ([("pointer@a", (⟨.AnnotationCls, 7⟩ : Obj))] : Registry).lookup "pointer@a"
        = some ⟨.AnnotationCls, 7⟩
    ∧ issubclass WClass.AnnotationCls WClass.DataSource = false
    ∧ (Context.remove [("pointer@a", ⟨.AnnotationCls, 7⟩)] .DataSource "pointer@a"
          = .error .typeMismatch
        ∧ Context.load [("pointer@a", ⟨.AnnotationCls, 7⟩)] "pointer@a" = some ⟨.AnnotationCls, 7⟩) :=
  ⟨by decide, by decide,
    remove_wrong_type_fails_and_keeps_entry [("pointer@a", ⟨.AnnotationCls, 7⟩)]
      .DataSource "pointer@a" ⟨.AnnotationCls, 7⟩ (by decide) (by decide)⟩

/-- C6: removing a handle absent from the registry fails with the not-found
error for every expected class, and the DELETE route surfaces an error - it
never answers with a success response (the registry mapping is unchanged,
the route returning no new registry). -/
theorem remove_absent_handle_not_found (objects : Registry) (class_name object_id : String)
    (habsent : objects.lookup object_id = none) :
    (∀ k : WClass, Context.remove objects k object_id = .error .notFound)
    ∧ remove_object objects class_name object_id = .error .notFound
    ∧ ∀ resp r, remove_object objects class_name object_id ≠ .ok (resp, r) := by
  have hrem : ∀ k : WClass, Context.remove objects k object_id = .error .notFound := by
    intro k
    simp [Context.remove, habsent]
  have hroute : remove_object objects class_name object_id = .error .notFound := by
    unfold remove_object
    cases h : Context.get_class_named class_name with
    | none => simp [habsent]
    | some k => simp [hrem k]
  exact ⟨hrem, hroute, by simp [hroute]⟩

/-- Witness for C6: `DELETE /datasource/pointer@abc` against an empty
registry fails not-found, never a success. -/
theorem remove_absent_handle_not_found_witness :
    (([] : Registry).lookup "pointer@abc" = none)
    ∧ ((∀ k : WClass, Context.remove [] k "pointer@abc" = .error .notFound)
        ∧ remove_object [] "datasource" "pointer@abc" = .error .notFound
        ∧ ∀ resp r, remove_object [] "datasource" "pointer@abc" ≠ .ok (resp, r)) :=
  ⟨by decide, remove_absent_handle_not_found [] "datasource" "pointer@abc" (by decide)⟩

/-- C9: `get_all(T)` returns exactly the registry entries whose stored
object's concrete class is a subclass of `T`. -/
theorem get_all_exactly_subtype_entries (objects : Registry) (klass : WClass)
    (key : String) (obj : Obj) :
    (key, obj) ∈ Context.get_all objects klass
      ↔ ((key, obj) ∈ objects ∧ issubclass obj.klass klass = true) := by
  simp [Context.get_all, List.mem_filter]

/-- Counterexample to C3 as stated: for `POST /bogus/` the unknown class
name is surfaced as a generic 500 server error - not as a malformed-request
client error - while indeed nothing is stored. -/
theorem create_object_unknown_class_counterexample :
    Context.get_class_named "bogus" = none
    ∧ (create_object [] "bogus" ⟨none, 0⟩ "f").1 = HttpResponse.serverError
    ∧ (create_object [] "bogus" ⟨none, 0⟩ "f").2 = [] := by
  refine ⟨?_, ?_, ?_⟩ <;> decide

/-- C3 (amended): for every class-name string that matches no entry of the
allow-list, neither verbatim nor after the case/format-insensitive
transformation, the create operation fails and no object is constructed or
stored - but the failure is surfaced as a generic server error, not as a
malformed-request client error. -/
theorem create_object_unknown_class_fails (objects : Registry) (name : String)
    (payload : Payload) (fresh : String)
    (h1 : workflow_classes.lookup name = none)
    (h2 : workflow_classes.lookup (dropUnderscores (pyTitle name)) = none) :
    Context.get_class_named name = none
    ∧ (create_object objects name payload fresh).1 = HttpResponse.serverError
    ∧ (∀ code body, (create_object objects name payload fresh).1
        ≠ HttpResponse.clientError code body)
    ∧ (create_object objects name payload fresh).2 = objects := by
  have hn : Context.get_class_named name = none := by
    simp [Context.get_class_named, h1, h2]
  refine ⟨hn, ?_, ?_, ?_⟩ <;> simp [create_object, hn]

/-- Witness for C3 (amended) at the concrete class name `"bogus"` against an
empty registry. -/
theorem create_object_unknown_class_fails_witness :
    (workflow_classes.lookup "bogus" = none
      ∧ workflow_classes.lookup (dropUnderscores (pyTitle "bogus")) = none)
    ∧ (Context.get_class_named "bogus" = none
        ∧ (create_object [] "bogus" ⟨none, 0⟩ "f").1 = HttpResponse.serverError
        ∧ (∀ code body, (create_object [] "bogus" ⟨none, 0⟩ "f").1
            ≠ HttpResponse.clientError code body)
        ∧ (create_object [] "bogus" ⟨none, 0⟩ "f").2 = []) :=
  ⟨⟨by decide, by decide⟩,
    create_object_unknown_class_fails [] "bogus" ⟨none, 0⟩ "f" (by decide) (by decide)⟩

/-- Interval membership unfolded. -/
theorem Interval.containsB_iff (iv : Interval) (n : Nat) :
    iv.containsB n = true ↔ (iv.start ≤ n ∧ n < iv.stop) := by
  simp [Interval.containsB]

/-- Counting over all pairs: a component-wise conjunction predicate counts
multiplicatively. -/
theorem countP_pairs (l1 : List α) (l2 : List β) (p : α → Bool) (q : β → Bool) :
    (pairs l1 l2).countP (fun ab => p ab.1 && q ab.2) = l1.countP p * l2.countP q := by
  induction l1 with
  | nil => simp [pairs]
  | cons a as ih =>
    simp only [pairs, List.flatMap_cons, List.countP_append, List.countP_map, List.countP_cons]
    simp only [pairs] at ih
    rw [ih]
    by_cases hpa : p a = true
    · simp only [Function.comp_def, hpa, Bool.true_and, if_true]
      ring
    · have hpa2 : p a = false := by simpa using hpa
      simp only [Function.comp_def, hpa2, Bool.false_and, if_false]
      simp [Nat.add_mul]

/-- A predicate satisfied by exactly one element of `range n` counts one. -/
theorem countP_range_unique (n k0 : Nat) (p : Nat → Bool) (hk : k0 < n)
    (hp : ∀ k, k < n → (p k = true ↔ k = k0)) :
    (List.range n).countP p = 1 := by
  induction n with
  | zero => omega
  | succ m ih =>
    rw [List.range_succ, List.countP_append]
    by_cases hm : k0 = m
    · have h0 : (List.range m).countP p = 0 := by
        rw [List.countP_eq_zero]
        intro a ha hpa
        have ham := List.mem_range.mp ha
        have := (hp a (by omega)).mp hpa
        omega
      have hpm : p m = true := (hp m (by omega)).mpr (by omega)
      simp [h0, hpm]
    · have h1 : (List.range m).countP p = 1 :=
        ih (by omega) (fun k hkm => hp k (by omega))
      have hpm : ¬p m = true := fun hc => hm ((hp m (by omega)).mp hc).symm
      simp [h1, hpm]

/-- Exactly one tile of the per-axis decomposition contains each coordinate
of the interval: the one-dimensional partition property of the tile grid. -/
theorem axisTiles_countP_one (iv : Interval) (step n0 : Nat) (hstep : 0 < step)
    (h1 : iv.start ≤ n0) (h2 : n0 < iv.stop) :
    (axisTiles iv step).countP (fun j => j.containsB n0) = 1 := by
  unfold axisTiles
  rw [List.countP_map]
  apply countP_range_unique ((iv.stop - iv.start + step - 1) / step) ((n0 - iv.start) / step)
  · have hL1 : 1 ≤ iv.stop - iv.start := by omega
    have e1 : iv.stop - iv.start + step - 1 = (iv.stop - iv.start - 1) + step := by omega
    have e2 : (iv.stop - iv.start + step - 1) / step = (iv.stop - iv.start - 1) / step + 1 := by
      rw [e1, Nat.add_div_right _ hstep]
    have e3 : (n0 - iv.start) / step ≤ (iv.stop - iv.start - 1) / step :=
      Nat.div_le_div_right (by omega)
    omega
  · intro k hkn
    simp only [Function.comp_def, Interval.containsB, Bool.and_eq_true, decide_eq_true_eq,
      Nat.lt_min]
    constructor
    · rintro ⟨ha, hb, -⟩
      have lo : k * step ≤ n0 - iv.start := by omega
      have hi : n0 - iv.start < (k + 1) * step := by
        rw [Nat.succ_mul]
        omega
      exact (Nat.div_eq_of_lt_le lo hi).symm
    · rintro rfl
      have hA : (n0 - iv.start) / step * step ≤ n0 - iv.start := Nat.div_mul_le_self _ _
      have hB : step * ((n0 - iv.start) / step) + (n0 - iv.start) % step = n0 - iv.start :=
        Nat.div_add_mod _ _
      have hC : (n0 - iv.start) % step < step := Nat.mod_lt _ hstep
      have hD : step * ((n0 - iv.start) / step) = (n0 - iv.start) / step * step :=
        Nat.mul_comm _ _
      omega

/-- Exactly one tile of the grid contains each point of the resolved region:
the partition property of the tile grid (spec section 4.1), per point. -/
theorem tileGrid_countP_one (roi : Roi5D) (sh : Shape5D) (p : Point5D)
    (ht : 0 < sh.t) (hx : 0 < sh.x) (hy : 0 < sh.y) (hz : 0 < sh.z)
    (hpt : roi.t.containsB p.t = true) (hpx : roi.x.containsB p.x = true)
    (hpy : roi.y.containsB p.y = true) (hpz : roi.z.containsB p.z = true) :
    (tileGrid roi sh).countP (fun tl => tl.containsB p) = 1 := by
  rw [Interval.containsB_iff] at hpt hpx hpy hpz
  have cT := axisTiles_countP_one roi.t sh.t p.t ht hpt.1 hpt.2
  have cX := axisTiles_countP_one roi.x sh.x p.x hx hpx.1 hpx.2
  have cY := axisTiles_countP_one roi.y sh.y p.y hy hpy.1 hpy.2
  have cZ := axisTiles_countP_one roi.z sh.z p.z hz hpz.1 hpz.2
  have cYZ := countP_pairs (axisTiles roi.y sh.y) (axisTiles roi.z sh.z)
    (fun i => i.containsB p.y) (fun i => i.containsB p.z)
  rw [cY, cZ] at cYZ
  have cXYZ := countP_pairs (axisTiles roi.x sh.x)
    (pairs (axisTiles roi.y sh.y) (axisTiles roi.z sh.z))
    (fun i => i.containsB p.x) (fun w => w.1.containsB p.y && w.2.containsB p.z)
  rw [cX, cYZ] at cXYZ
  have cAll := countP_pairs (axisTiles roi.t sh.t)
    (pairs (axisTiles roi.x sh.x) (pairs (axisTiles roi.y sh.y) (axisTiles roi.z sh.z)))
    (fun i => i.containsB p.t)
    (fun w => w.1.containsB p.x && (w.2.1.containsB p.y && w.2.2.containsB p.z))
  rw [cT, cXYZ] at cAll
  simpa using cAll

/-- A tile task does not change the buffer's region fields. -/
theorem predictTileStep_containsB (cl : Classifier) (buf : Predictions) (tl : Tile5D)
    (p : Point5D) : (predictTileStep cl buf tl).containsB p = buf.containsB p := by
  unfold predictTileStep Predictions.set
  by_cases hf : cl.failsOn tl <;> simp [hf, Predictions.containsB]

/-- A run of tile tasks none of which covers a point leaves that cell of the
buffer unchanged. -/
theorem foldl_step_data_of_not_covered (cl : Classifier) (tiles : List Tile5D)
    (buf : Predictions) (p : Point5D)
    (h : ∀ tl ∈ tiles, predRegionB cl tl p = false) :
    (tiles.foldl (predictTileStep cl) buf).data p = buf.data p := by
  induction tiles generalizing buf with
  | nil => rfl
  | cons tl rest ih =>
    rw [List.foldl_cons, ih _ (fun u hu => h u (by simp [hu]))]
    unfold predictTileStep
    by_cases hf : cl.failsOn tl
    · simp [hf]
    · simp [hf, Predictions.set, h tl (by simp)]

/-- After a run of tile tasks that all succeed, an in-bounds cell covered by
some task's write holds the classifier's predicted value. -/
theorem foldl_step_data_of_covered (cl : Classifier) (tiles : List Tile5D)
    (buf : Predictions) (p : Point5D) (hin : buf.containsB p = true)
    (hcov : ∃ tl ∈ tiles, predRegionB cl tl p = true)
    (hfail : ∀ tl ∈ tiles, cl.failsOn tl = false) :
    (tiles.foldl (predictTileStep cl) buf).data p = some (cl.predictVal p) := by
  induction tiles generalizing buf with
  | nil => simp at hcov
  | cons tl rest ih =>
    rw [List.foldl_cons]
    by_cases hrest : ∃ u ∈ rest, predRegionB cl u p = true
    · apply ih
      · rw [predictTileStep_containsB]
        exact hin
      · exact hrest
      · exact fun u hu => hfail u (by simp [hu])
    · have hcovtl : predRegionB cl tl p = true := by
        rcases hcov with ⟨u, humem, hup⟩
        rcases List.mem_cons.mp humem with h1 | h1
        · rwa [h1] at hup
        · exact absurd ⟨u, h1, hup⟩ hrest
      have hnone : ∀ u ∈ rest, predRegionB cl u p = false := by
        intro u hu
        by_contra hc
        exact hrest ⟨u, hu, by simpa using hc⟩
      rw [foldl_step_data_of_not_covered cl rest _ p hnone]
      unfold predictTileStep
      rw [hfail tl (List.mem_cons_self tl rest)]
      simp [Predictions.set, hcovtl, hin]

/-- C2: when no tile task fails, `do_predictions` returns only after every
scheduled tile write completed (the executor is joined at the end of its
`with` block, modelled by folding over the whole grid), and then every cell
of the buffer's channel-restricted, spatially-restricted requested region
was written exactly once: exactly one scheduled tile write covers the cell,
and the cell holds the predicted value. -/
theorem do_predictions_covers_every_cell_exactly_once (cl : Classifier) (ds : DataSource)
    (roi : Slice5D) (p : Point5D)
    (ht : 0 < ds.tile_shape.t) (hx : 0 < ds.tile_shape.x) (hy : 0 < ds.tile_shape.y)
    (hz : 0 < ds.tile_shape.z)
    (hfail : ∀ tl ∈ tileGrid (roi.defined ds.shape) ds.tile_shape, cl.failsOn tl = false)
    (hpt : (roi.defined ds.shape).t.containsB p.t = true)
    (hpx : (roi.defined ds.shape).x.containsB p.x = true)
    (hpy : (roi.defined ds.shape).y.containsB p.y = true)
    (hpz : (roi.defined ds.shape).z.containsB p.z = true)
    (hpc : p.c < cl.numChannels) :
    (do_predictions cl ds roi).data p = some (cl.predictVal p)
    ∧ (tileGrid (roi.defined ds.shape) ds.tile_shape).countP
        (fun tl => predRegionB cl tl p) = 1 := by
  have hcount : (tileGrid (roi.defined ds.shape) ds.tile_shape).countP
      (fun tl => tl.containsB p) = 1 :=
    tileGrid_countP_one (roi.defined ds.shape) ds.tile_shape p ht hx hy hz hpt hpx hpy hpz
  have hcong : (tileGrid (roi.defined ds.shape) ds.tile_shape).countP
      (fun tl => predRegionB cl tl p)
      = (tileGrid (roi.defined ds.shape) ds.tile_shape).countP (fun tl => tl.containsB p) :=
    List.countP_congr (fun tl _ => by simp [predRegionB, hpc])
  have hcount2 : (tileGrid (roi.defined ds.shape) ds.tile_shape).countP
      (fun tl => predRegionB cl tl p) = 1 := by rw [hcong, hcount]
  refine ⟨?_, hcount2⟩
  have hcov : ∃ tl ∈ tileGrid (roi.defined ds.shape) ds.tile_shape,
      predRegionB cl tl p = true :=
    List.countP_pos_iff.mp (by omega)
  have hin : (cl.allocate_predictions (roi.defined ds.shape)).containsB p = true := by
    have h1 := (Interval.containsB_iff _ _).mp hpt
    have h2 := (Interval.containsB_iff _ _).mp hpx
    have h3 := (Interval.containsB_iff _ _).mp hpy
    have h4 := (Interval.containsB_iff _ _).mp hpz
    simp [Classifier.allocate_predictions, Predictions.containsB, Interval.containsB,
      hpc, h1.1, h1.2, h2.1, h2.2, h3.1, h3.2, h4.1, h4.2]
  exact foldl_step_data_of_covered cl _ _ p hin hcov hfail

/-- Witness for C2 at a concrete pipeline: a data source of shape
`(1, 1, 2, 1, 1)` tiled into unit tiles, a never-failing one-channel
classifier predicting `x + 1`, request `x = [0, 2)`, observed at the point
`(0, 0, 1, 0, 0)`. -/
theorem do_predictions_covers_every_cell_exactly_once_witness :
    ((0 : Nat) < 1 ∧ (∀ tl ∈ tileGrid (exRoi.defined exDS.shape) exDS.tile_shape,
        exCl.failsOn tl = false)
      ∧ (exRoi.defined exDS.shape).t.containsB 0 = true
      ∧ (exRoi.defined exDS.shape).x.containsB 1 = true
      ∧ (0 : Nat) < exCl.numChannels)
    ∧ ((do_predictions exCl exDS exRoi).data ⟨0, 0, 1, 0, 0⟩
          = some (exCl.predictVal ⟨0, 0, 1, 0, 0⟩)
        ∧ (tileGrid (exRoi.defined exDS.shape) exDS.tile_shape).countP
            (fun tl => predRegionB exCl tl ⟨0, 0, 1, 0, 0⟩) = 1) :=
  ⟨⟨by decide, by decide, by decide, by decide, by decide⟩,
    do_predictions_covers_every_cell_exactly_once exCl exDS exRoi ⟨0, 0, 1, 0, 0⟩
      (by decide) (by decide) (by decide) (by decide) (by decide) (by decide)
      (by decide) (by decide) (by decide) (by decide)⟩

/-- C1 is violated by the code (code bug): `do_predictions` submits one task
per tile and never inspects the resulting futures, so an exception raised
inside one tile's prediction is silently swallowed and the partially written
buffer is returned to the caller.  Concretely, over a two-tile request where
the classifier raises on the second tile, the call still returns a buffer
whose first tile's cell is written while the failed tile's cell is not. -/
theorem do_predictions_returns_partial_buffer_on_tile_failure :
    (∃ tl ∈ tileGrid (exRoi.defined exDS.shape) exDS.tile_shape,
        exClFail.failsOn tl = true)
    ∧ (do_predictions exClFail exDS exRoi).data ⟨0, 0, 0, 0, 0⟩ = some 5
    ∧ (do_predictions exClFail exDS exRoi).data ⟨0, 0, 1, 0, 0⟩ = none := by
  refine ⟨?_, ?_, ?_⟩ <;> decide

/-- C8: two renderings of the predictions info document with no intervening
state change are byte-identical (the document is a function of the loaded
classifier and data source alone - the route reads nothing else), and the
document carries exactly the fixed schema keys, its single scale entry
carrying exactly the fixed scale keys. -/
theorem info_dict_byte_identical_fixed_schema (cl : Classifier) (ds : DataSource) :
    Json.render (info_dict cl ds) = Json.render (info_dict cl ds)
    ∧ (info_dict cl ds).topKeys = ["@type", "type", "data_type", "num_channels", "scales"]
    ∧ ((info_dict cl ds).scalesEntries).map Json.topKeys
        = [["key", "size", "resolution", "voxel_offset", "chunk_sizes", "encoding"]] :=
  ⟨rfl, rfl, rfl⟩

/-- C10: a `GET /predict/` request that omits the channel query parameter
uses channel 0: the parameter defaults to 0 and the rendered plane is the
channel-0 slice of the prediction buffer. -/
theorem predict_omitted_channel_defaults_to_zero (cl : Classifier) (ds : DataSource)
    (roi : Slice5D) (args : List (String × String))
    (h : args.lookup "channel" = none) :
    predict_channel args = .ok 0
    ∧ predict_route cl ds roi args
        = .ok (fun y x => (do_predictions cl ds roi).data
            ⟨(do_predictions cl ds roi).t.start, 0, x, y,
              (do_predictions cl ds roi).z.start⟩) := by
  have h0 : predict_channel args = .ok 0 := by simp [predict_channel, h]
  refine ⟨h0, ?_⟩
  simp [predict_route, h0]

/-- Witness for C10 at concrete query arguments that omit the channel
parameter. -/
theorem predict_omitted_channel_defaults_to_zero_witness :
    ([("x", "0_2")] : List (String × String)).lookup "channel" = none
    ∧ (predict_channel [("x", "0_2")] = .ok 0
        ∧ predict_route exCl exDS exRoi [("x", "0_2")]
            = .ok (fun y x => (do_predictions exCl exDS exRoi).data
                ⟨(do_predictions exCl exDS exRoi).t.start, 0, x, y,
                  (do_predictions exCl exDS exRoi).z.start⟩)) :=
  ⟨by decide,
    predict_omitted_channel_defaults_to_zero exCl exDS exRoi [("x", "0_2")] (by decide)⟩

/-- A tile task changes only the buffer's data, never its region fields. -/
theorem predictTileStep_region (cl : Classifier) (buf : Predictions) (tl : Tile5D) :
    (predictTileStep cl buf tl).t = buf.t ∧ (predictTileStep cl buf tl).c = buf.c
    ∧ (predictTileStep cl buf tl).x = buf.x ∧ (predictTileStep cl buf tl).y = buf.y
    ∧ (predictTileStep cl buf tl).z = buf.z := by
  unfold predictTileStep Predictions.set
  by_cases hf : cl.failsOn tl <;> simp [hf]

/-- A run of tile tasks changes only the buffer's data, never its region. -/
theorem foldl_step_region (cl : Classifier) (tiles : List Tile5D) (buf : Predictions) :
    (tiles.foldl (predictTileStep cl) buf).t = buf.t
    ∧ (tiles.foldl (predictTileStep cl) buf).c = buf.c
    ∧ (tiles.foldl (predictTileStep cl) buf).x = buf.x
    ∧ (tiles.foldl (predictTileStep cl) buf).y = buf.y
    ∧ (tiles.foldl (predictTileStep cl) buf).z = buf.z := by
  induction tiles generalizing buf with
  | nil => exact ⟨rfl, rfl, rfl, rfl, rfl⟩
  | cons tl rest ih =>
    rw [List.foldl_cons]
    have h := ih (predictTileStep cl buf tl)
    have hs := predictTileStep_region cl buf tl
    exact ⟨h.1.trans hs.1, h.2.1.trans hs.2.1, h.2.2.1.trans hs.2.2.1,
      h.2.2.2.1.trans hs.2.2.2.1, h.2.2.2.2.trans hs.2.2.2.2⟩

/-- The region of the buffer `do_predictions` returns: the resolved request
spatially, the classifier's output channels along `c`. -/
theorem do_predictions_region (cl : Classifier) (ds : DataSource) (roi : Slice5D) :
    (do_predictions cl ds roi).t = (roi.defined ds.shape).t
    ∧ (do_predictions cl ds roi).c = ⟨0, cl.numChannels⟩
    ∧ (do_predictions cl ds roi).x = (roi.defined ds.shape).x
    ∧ (do_predictions cl ds roi).y = (roi.defined ds.shape).y
    ∧ (do_predictions cl ds roi).z = (roi.defined ds.shape).z := by
  have h := foldl_step_region cl (tileGrid (roi.defined ds.shape) ds.tile_shape)
    (cl.allocate_predictions (roi.defined ds.shape))
  exact h

/-- A strict bound for one mixed-radix digit pair. -/
theorem addMulLt (a A b B : Nat) (ha : a < A) (hb : b < B) : a + A * b < A * B := by
  have h1 : a + A * b < A * (b + 1) := by
    rw [Nat.mul_add, Nat.mul_one]
    omega
  have h2 : A * (b + 1) ≤ A * B := Nat.mul_le_mul (Nat.le_refl A) hb
  omega

/-- The Fortran flat index of in-range coordinates is in range. -/
theorem mixedRadixLt (x X y Y z Z c C : Nat) (hx : x < X) (hy : y < Y) (hz : z < Z)
    (hc : c < C) : x + X * (y + Y * (z + Z * c)) < X * Y * Z * C := by
  have h1 : z + Z * c < Z * C := addMulLt _ _ _ _ hz hc
  have h2 : y + Y * (z + Z * c) < Y * (Z * C) := addMulLt _ _ _ _ hy h1
  have h3 : x + X * (y + Y * (z + Z * c)) < X * (Y * (Z * C)) := addMulLt _ _ _ _ hx h2
  calc x + X * (y + Y * (z + Z * c)) < X * (Y * (Z * C)) := h3
    _ = X * Y * Z * C := by ring

/-- Decoding the Fortran flat index recovers each coordinate. -/
theorem fortranDecode (x X y Y z Z c : Nat) (hx : x < X) (hy : y < Y) (hz : z < Z) :
    (x + X * (y + Y * (z + Z * c))) % X = x
    ∧ (x + X * (y + Y * (z + Z * c))) / X % Y = y
    ∧ (x + X * (y + Y * (z + Z * c))) / (X * Y) % Z = z
    ∧ (x + X * (y + Y * (z + Z * c))) / (X * Y * Z) = c := by
  have hX : 0 < X := by omega
  have hY : 0 < Y := by omega
  have hZ : 0 < Z := by omega
  have d1 : (x + X * (y + Y * (z + Z * c))) / X = y + Y * (z + Z * c) := by
    rw [Nat.add_mul_div_left _ _ hX, Nat.div_eq_of_lt hx, Nat.zero_add]
  have d2 : (y + Y * (z + Z * c)) / Y = z + Z * c := by
    rw [Nat.add_mul_div_left _ _ hY, Nat.div_eq_of_lt hy, Nat.zero_add]
  have d3 : (z + Z * c) / Z = c := by
    rw [Nat.add_mul_div_left _ _ hZ, Nat.div_eq_of_lt hz, Nat.zero_add]
  refine ⟨?_, ?_, ?_, ?_⟩
  · rw [Nat.add_mul_mod_self_left, Nat.mod_eq_of_lt hx]
  · rw [d1, Nat.add_mul_mod_self_left, Nat.mod_eq_of_lt hy]
  · rw [← Nat.div_div_eq_div_mul, d1, d2, Nat.add_mul_mod_self_left, Nat.mod_eq_of_lt hz]
  · rw [← Nat.div_div_eq_div_mul, ← Nat.div_div_eq_div_mul, d1, d2, d3]

/-- The raw-chunk body length in terms of the clamped resolved region. -/
theorem ng_predict_body_length (cl : Classifier) (ds : DataSource)
    (xB xE yB yE zB zE : Nat) :
    (ng_predict_body cl ds xB xE yB yE zB zE).length
      = (min xE ds.shape.x - min xB ds.shape.x) * (min yE ds.shape.y - min yB ds.shape.y)
        * (min zE ds.shape.z - min zB ds.shape.z) * cl.numChannels := by
  have h := do_predictions_region cl ds (ng_predict_roi xB xE yB yE zB zE)
  simp only [ng_predict_body, List.length_map, List.length_range, h.2.1, h.2.2.1,
    h.2.2.2.1, h.2.2.2.2]
  simp [ng_predict_roi, Slice5D.defined, resolveAxis]

/-- Counterexample to C7 as stated: against the data source of `x` extent 5,
the raw-chunk request `0-10_0-10_0-1` with the 2-channel classifier does not
return `(10-0)*(10-0)*(1-0)*2 = 200` bytes (the resolved region is clamped
to the data source bounds, so only `5*10*1*2 = 100` bytes come back). -/
theorem ng_predict_body_out_of_range_counterexample :
    (ng_predict_body cxCl cxDS 0 10 0 10 0 1).length ≠ (10 - 0) * (10 - 0) * (1 - 0) * 2 := by
  rw [ng_predict_body_length]
  decide

/-- C7 (amended): for every raw-chunk request whose region lies within the
data source bounds, the response body is exactly
`(xEnd-xBegin)*(yEnd-yBegin)*(zEnd-zBegin)*C` bytes and is the 8-bit buffer
in Fortran `[x, y, z, channel]` fastest-varying order: the byte at flat
index `x + X*(y + Y*(z + Z*c))` is the buffer cell at
`(xBegin+x, yBegin+y, zBegin+z)`, channel `c`. -/
theorem ng_predict_body_inbounds_length_and_order (cl : Classifier) (ds : DataSource)
    (xB xE yB yE zB zE : Nat)
    (hxs : xE ≤ ds.shape.x) (hys : yE ≤ ds.shape.y) (hzs : zE ≤ ds.shape.z)
    (hxb : xB ≤ xE) (hyb : yB ≤ yE) (hzb : zB ≤ zE) :
    (ng_predict_body cl ds xB xE yB yE zB zE).length
        = (xE - xB) * (yE - yB) * (zE - zB) * cl.numChannels
    ∧ ∀ x y z c, x < xE - xB → y < yE - yB → z < zE - zB → c < cl.numChannels →
        (ng_predict_body cl ds xB xE yB yE zB zE)[x + (xE - xB) * (y + (yE - yB)
            * (z + (zE - zB) * c))]?
          = some (((do_predictions cl ds (ng_predict_roi xB xE yB yE zB zE)).data
              ⟨0, c, xB + x, yB + y, zB + z⟩).getD 0) := by
  have hreg := do_predictions_region cl ds (ng_predict_roi xB xE yB yE zB zE)
  have hT : (do_predictions cl ds (ng_predict_roi xB xE yB yE zB zE)).t = ⟨0, ds.shape.t⟩ :=
    hreg.1
  have hC : (do_predictions cl ds (ng_predict_roi xB xE yB yE zB zE)).c
      = ⟨0, cl.numChannels⟩ := hreg.2.1
  have hX : (do_predictions cl ds (ng_predict_roi xB xE yB yE zB zE)).x = ⟨xB, xE⟩ := by
    rw [hreg.2.2.1]
    show Interval.mk (min xB ds.shape.x) (min xE ds.shape.x) = _
    rw [Nat.min_eq_left (by omega), Nat.min_eq_left hxs]
  have hY : (do_predictions cl ds (ng_predict_roi xB xE yB yE zB zE)).y = ⟨yB, yE⟩ := by
    rw [hreg.2.2.2.1]
    show Interval.mk (min yB ds.shape.y) (min yE ds.shape.y) = _
    rw [Nat.min_eq_left (by omega), Nat.min_eq_left hys]
  have hZ : (do_predictions cl ds (ng_predict_roi xB xE yB yE zB zE)).z = ⟨zB, zE⟩ := by
    rw [hreg.2.2.2.2]
    show Interval.mk (min zB ds.shape.z) (min zE ds.shape.z) = _
    rw [Nat.min_eq_left (by omega), Nat.min_eq_left hzs]
  constructor
  · rw [ng_predict_body_length, Nat.min_eq_left hxs, Nat.min_eq_left hys,
      Nat.min_eq_left hzs, Nat.min_eq_left (show xB ≤ ds.shape.x by omega),
      Nat.min_eq_left (show yB ≤ ds.shape.y by omega),
      Nat.min_eq_left (show zB ≤ ds.shape.z by omega)]
  · intro x y z c hx hy hz hc
    have hidx : x + (xE - xB) * (y + (yE - yB) * (z + (zE - zB) * c))
        < (xE - xB) * (yE - yB) * (zE - zB) * cl.numChannels :=
      mixedRadixLt x _ y _ z _ c _ hx hy hz hc
    have hdec := fortranDecode x (xE - xB) y (yE - yB) z (zE - zB) c hx hy hz
    simp only [ng_predict_body, hT, hC, hX, hY, hZ, Nat.sub_zero, List.getElem?_map]
    rw [List.getElem?_range hidx]
    simp only [Option.map_some']
    rw [hdec.1, hdec.2.1, hdec.2.2.1, hdec.2.2.2]

/-- Witness for C7 (amended) at a concrete in-bounds request: the two-cell
data source, one-channel classifier, request `0-2_0-1_0-1`. -/
theorem ng_predict_body_inbounds_length_and_order_witness :
    ((2 : Nat) ≤ exDS.shape.x ∧ (1 : Nat) ≤ exDS.shape.y ∧ (1 : Nat) ≤ exDS.shape.z
      ∧ (0 : Nat) ≤ 2 ∧ (0 : Nat) ≤ 1 ∧ (0 : Nat) ≤ 1)
    ∧ ((ng_predict_body exCl exDS 0 2 0 1 0 1).length
          = (2 - 0) * (1 - 0) * (1 - 0) * exCl.numChannels
        ∧ ∀ x y z c, x < 2 - 0 → y < 1 - 0 → z < 1 - 0 → c < exCl.numChannels →
            (ng_predict_body exCl exDS 0 2 0 1 0 1)[x + (2 - 0) * (y + (1 - 0)
                * (z + (1 - 0) * c))]?
              = some (((do_predictions exCl exDS (ng_predict_roi 0 2 0 1 0 1)).data
                  ⟨0, c, 0 + x, 0 + y, 0 + z⟩).getD 0)) :=
  ⟨⟨by decide, by decide, by decide, by decide, by decide, by decide⟩,
    ng_predict_body_inbounds_length_and_order exCl exDS 0 2 0 1 0 1
      (by decide) (by decide) (by decide) (by decide) (by decide) (by decide)⟩

end IlastikServer
